import Mathlib

/-!
Shallow embedding of the Risk & Admission-Control Engine of the AI-Trading
repository (src/risk_manager.py).  Python floats are embedded as exact
rationals (ℚ), Python ints as ℤ/ℕ, dicts as association lists, and the
injected callbacks (equity provider, invalidation-condition evaluator) as
explicit parameters.  `pre_trade_checks` is split into the stages the
source file itself labels; the split is purely syntactic, every test and
formula is translated verbatim from the source.
-/

namespace AITrading

/-- One-millionth-of-a-thousand epsilon `1e-9` used by the source as a
denominator clamp. -/
def eps9 : ℚ := 1 / 1000000000

/-- 交易品种规则 — per-symbol tick/lot rules (src/risk_manager.py lines 12-17). -/
structure SymbolRule where
  price_tick : ℚ := 1 / 10
  lot_size_min : ℚ := 1 / 10000
  lot_size_step : ℚ := 1 / 10000
deriving DecidableEq

/-- 风控配置参数 — RiskConfig with the dataclass defaults
(src/risk_manager.py lines 19-60). -/
structure RiskConfig where
  daily_loss_limit_pct : ℚ := 3 / 100
  max_open_risk_pct : ℚ := 3 / 100
  max_gross_exposure_pct : ℚ := 1
  balance_reserve_pct : ℚ := 1 / 10
  max_consecutive_losses : ℤ := 3
  cooldown_global_sec : ℤ := 900
  max_symbol_exposure_pct : ℚ := 3 / 10
  symbol_cooldown_sec : ℤ := 180
  risk_per_trade_pct : ℚ := 5 / 1000
  risk_min_pct : ℚ := 2 / 1000
  risk_max_pct : ℚ := 15 / 1000
  max_trade_ratio : ℚ := 3 / 10
  volatility_low_bps : ℚ := 30
  volatility_high_bps : ℚ := 100
  max_slippage_bps : ℚ := 20
  deviation_guard_bps : ℚ := 30
  atr_lookback : ℕ := 14
  atr_floor_bps : ℚ := 25
  atr_mult_stop : ℚ := 2
  atr_mult_tp : ℚ := 3
  fee_rate_bps : ℚ := 8
  symbol_rules : List (String × SymbolRule) := []
deriving DecidableEq

/-- One open position (value of the `open_positions` dict). -/
structure Position where
  side : String
  qty : ℚ
  avg_price : ℚ
deriving DecidableEq

/-- 风控状态 — the persisted RiskState (src/risk_manager.py lines 62-72). -/
structure RiskState where
  date : String
  day_open_equity : ℚ
  realized_pnl_today : ℚ := 0
  consecutive_losses : ℤ := 0
  consecutive_wins : ℤ := 0
  last_trade_ts : List (String × ℤ) := []
  symbol_exposure : List (String × ℚ) := []
  open_positions : List (String × Position) := []
deriving DecidableEq

/-- `risk` sub-object of a decision. -/
structure RiskSpec where
  stop_loss_pct : Option ℚ := none
  take_profit_pct : Option ℚ := none
deriving DecidableEq

/-- `exit_plan` sub-object of a decision. -/
structure ExitPlan where
  invalidation_condition : Option String := none
deriving DecidableEq

/-- Inner `decision` dict of the decision payload.  `none` stands for an
absent key (Python `dict.get` returning `None`). -/
structure DecisionBody where
  symbol : Option String := none
  side : Option String := none
  order_type : Option String := none
  limit_price : Option ℚ := none
  size : Option ℚ := none
  confidence : Option ℚ := none
  risk : Option RiskSpec := none
  exit_plan : Option ExitPlan := none
deriving DecidableEq

/-- The 3-minute-timeframe indicator bundle read by the extreme-signal veto. -/
structure Ctx3m where
  rsi14 : Option ℚ := none
  adx14 : Option ℚ := none
deriving DecidableEq

/-- One row of the market snapshot.  `tf3m = none` models both an absent
`tf` dict and an absent/empty `3m` entry (all of which are falsy). -/
structure MarketRow where
  price : Option ℚ := none
  tf3m : Option Ctx3m := none
deriving DecidableEq

/-- Account balance.  `usdt = some a` models `balance["USDT"]` being a dict
whose `available` entry reads `a` (0 when the key is missing); `usdt = none`
models a non-dict `USDT` entry, in which case the top-level `available`
key (default 0) is used. -/
structure Balance where
  usdt : Option ℚ := none
  available : Option ℚ := none
deriving DecidableEq

/-- The order returned on admission (src/risk_manager.py lines 551-557). -/
structure Order where
  symbol : String
  side : String
  order_type : String
  size : ℚ
  limit_price : Option ℚ
deriving DecidableEq

/-- Rejection/admission reason.  Constructors mirror the return statements
of `pre_trade_checks`, in source order; numeric values interpolated into the
source's f-strings are abstracted away, the stable text is `reasonText`. -/
inductive Reason where
  | missingSymbol
  | invalidSide (side : Option String)
  | holdNoOrder
  | priceUnavailable (sym : String)
  | equityUnavailable
  | rsi3mOverbought
  | rsi3mOversold
  | adx3mExtreme
  | killSwitch
  | invalidation (r : String)
  | globalCooldown
  | symbolCooldown (sym : String)
  | limitDeviation
  | sizeBelowMin
  | rawRTooLow
  | effectiveRTooLow
  | openRiskExceed
  | ok
deriving DecidableEq

/-- The stable (non-interpolated) text of each reason string of the source. -/
def reasonText : Reason → String
  | .missingSymbol => "missing symbol"
  | .invalidSide none => "invalid side: None"
  | .invalidSide (some s) => "invalid side: " ++ s
  | .holdNoOrder => "hold (no order)"
  | .priceUnavailable s => "price unavailable for " ++ s
  | .equityUnavailable => "equity unavailable"
  | .rsi3mOverbought => "3m RSI extreme overbought"
  | .rsi3mOversold => "3m RSI extreme oversold"
  | .adx3mExtreme => "3m ADX extreme"
  | .killSwitch => "kill-switch: daily loss"
  | .invalidation r => "invalidation: " ++ r
  | .globalCooldown => "global cooldown"
  | .symbolCooldown s => "symbol cooldown " ++ s
  | .limitDeviation => "limit price deviates"
  | .sizeBelowMin => "size below min"
  | .rawRTooLow => "raw R too low"
  | .effectiveRTooLow => "effective R after fees"
  | .openRiskExceed => "open risk exceed cap"
  | .ok => "ok"

/-- The evaluation verdict triple `(approved, order, reason)`. -/
abbrev Verdict := Bool × Option Order × Reason

/-- A rejection verdict. -/
def rejectV (r : Reason) : Verdict := (false, none, r)

/-- 向下取整到指定步长 — `_floor_to_step` (src/risk_manager.py lines 84-88). -/
def floor_to_step (x step : ℚ) : ℚ :=
  if step ≤ 0 then x else (⌊x / step⌋ : ℤ) * step

/-- 对齐数量到步长 — `_align_size` (src/risk_manager.py lines 90-97). -/
def align_size (size : ℚ) (rule : SymbolRule) : ℚ :=
  if size ≤ 0 then 0 else floor_to_step size rule.lot_size_step

/-- 对齐价格到最小变动单位 — `_align_price` (src/risk_manager.py lines 99-101). -/
def align_price (price : ℚ) (rule : SymbolRule) : ℚ :=
  floor_to_step price rule.price_tick

/-- `max` of a dict's values, Python `max(d.values())`; the default is never
used because the source guards against the empty dict. -/
def listMaxD (d : ℤ) : List ℤ → ℤ
  | [] => d
  | h :: t => t.foldl max h

/-- `_estimate_equity`: the injected `equity_provider` returns 0.0
when absent or when the call raises (src/risk_manager.py lines 183-190). -/
def estimateEquity : Option ℚ → ℚ
  | none => 0
  | some q => q

/-- 自适应冷却时间计算器 — `RiskManager.adaptive_cooldown`
(src/risk_manager.py lines 195-234); Python's `int(...)` truncation equals
the floor because the clamped value is at least 180. -/
def adaptive_cooldown (consecutive_losses : ℤ) (avg_drawdown volatility ai_confidence : ℚ) : ℤ :=
  let base_time : ℚ := 300
  let loss_factor : ℚ := 1 + (consecutive_losses : ℚ) * (3 / 10)
  let dd_factor : ℚ := 1 + (avg_drawdown / (5 / 100)) * (1 / 2)
  let vola_factor : ℚ := 1 + (volatility / (2 / 100)) * (1 / 2)
  let conf_factor : ℚ := if ai_confidence < 1 / 2 then 2 else 1
  let cooldown_time : ℚ := base_time * loss_factor * dd_factor * vola_factor * conf_factor
  ⌊max 180 (min cooldown_time 3600)⌋

/-- 动态仓位计算器 — `calculate_dynamic_position_size`
(src/risk_manager.py lines 236-298). -/
def calculate_dynamic_position_size (cfg : RiskConfig) (base_risk_pct ai_confidence volatility_bps : ℚ)
    (consecutive_losses consecutive_wins : ℤ) (equity : ℚ) : ℚ :=
  let conf_scale : ℚ := 1 / 2 + ai_confidence
  let vola_scale : ℚ :=
    if volatility_bps < cfg.volatility_low_bps then 12 / 10
    else if volatility_bps > cfg.volatility_high_bps then 6 / 10
    else
      let ratio := (volatility_bps - cfg.volatility_low_bps) /
        max 1 (cfg.volatility_high_bps - cfg.volatility_low_bps)
      12 / 10 - (6 / 10) * ratio
  let state_scale : ℚ :=
    if consecutive_losses ≥ 2 then 1 / 2
    else if consecutive_wins ≥ 3 then 13 / 10
    else 1
  let adjusted_risk_pct := base_risk_pct * conf_scale * vola_scale * state_scale
  let adjusted_risk_pct := max cfg.risk_min_pct (min adjusted_risk_pct cfg.risk_max_pct)
  adjusted_risk_pct * equity

/-- 计算ATR代理 — `_atr_proxy_bps` applied to one symbol's price history
(src/risk_manager.py lines 631-657). -/
def atrProxyBps (cfg : RiskConfig) (seq : List ℚ) : ℚ :=
  let N := max 3 cfg.atr_lookback
  if seq.length < 2 then cfg.atr_floor_bps
  else
    let diffs := (seq.zip (seq.drop 1)).map (fun p => |p.2 - p.1|)
    if diffs = [] then cfg.atr_floor_bps
    else
      let lastN := diffs.drop (diffs.length - N)
      let avg := lastN.sum / ((min N diffs.length : ℕ) : ℚ)
      let px := seq.getLastD 0
      let bps := avg / max px eps9 * 10000
      max cfg.atr_floor_bps bps

/-- 获取品种规则 — `_get_rule` (src/risk_manager.py lines 659-673). -/
def getRule (cfg : RiskConfig) (symbol : String) : SymbolRule :=
  ((cfg.symbol_rules).lookup symbol).getD {}

/-- 估算开仓后的总风险 — `_estimate_open_risk_after`
(src/risk_manager.py lines 675-715).  A structurally present position is
always a truthy dict, so the source's `if not pos` guard never skips. -/
def estimate_open_risk_after (cfg : RiskConfig) (ph : List (String × List ℚ))
    (open_positions : List (String × Position)) (symbol side : String)
    (size px stop_pct : ℚ) : ℚ :=
  let new_risk := size * px * stop_pct
  open_positions.foldl (fun total p =>
    if p.1 = symbol then total
    else
      let pos_qty := |p.2.qty|
      let pos_px := p.2.avg_price
      if pos_qty ≤ 0 ∨ pos_px ≤ 0 then total
      else
        let pos_stop_pct := atrProxyBps cfg ((ph.lookup p.1).getD []) * cfg.atr_mult_stop * (1 / 10000)
        total + pos_qty * pos_px * pos_stop_pct) new_risk

/-- Python dict assignment `d[k] = v` on an association list. -/
def assocSet {α : Type} : List (String × α) → String → α → List (String × α)
  | [], k, v => [(k, v)]
  | (k1, v1) :: t, k, v => if k1 = k then (k, v) :: t else (k1, v1) :: assocSet t k v

/-- Python `del d[k]` on an association list. -/
def assocDel {α : Type} : List (String × α) → String → List (String × α)
  | [], _ => []
  | (k1, v1) :: t, k => if k1 = k then t else (k1, v1) :: assocDel t k

/-- The in-memory `RiskManager` attributes read/written by
`pre_trade_checks`: config, persisted state, price history and the
`current_cooldown` attribute. -/
structure Manager where
  cfg : RiskConfig
  state : RiskState
  price_history : List (String × List ℚ) := []
  current_cooldown : ℤ := 0
deriving DecidableEq

/-- Modelled from the spec: `_check_invalidation` is called by
`pre_trade_checks` (src/risk_manager.py line 386) but is not defined under
src/; per spec §6 it is an external, pluggable predicate evaluator taking
the free-text condition, the symbol and the market snapshot and returning
whether the condition currently holds, together with a reason string.  It
is therefore a parameter of the evaluation. -/
abbrev InvChecker := String → String → List (String × MarketRow) → Bool × String

/-- Volatility used by stage 2.5: `self._atr_proxy_bps(sym) / 1e4`
(src/risk_manager.py line 393). -/
def evalVolatility (cfg : RiskConfig) (ph : List (String × List ℚ)) (sym : String) : ℚ :=
  atrProxyBps cfg ((ph.lookup sym).getD []) / 10000

/-- The kill-switch drawdown `dd` (src/risk_manager.py line 379). -/
def evalDrawdown (st : RiskState) (equity : ℚ) : ℚ :=
  (equity - st.day_open_equity) / max st.day_open_equity eps9

/-- The cooldown duration selected in stage 2.5: the fixed test cooldown
when `cooldown_global_sec ≤ 60`, otherwise `adaptive_cooldown`
(src/risk_manager.py lines 392-411). -/
def evalCooldownTime (cfg : RiskConfig) (ph : List (String × List ℚ)) (st : RiskState)
    (d : DecisionBody) (sym : String) (equity : ℚ) : ℤ :=
  if cfg.cooldown_global_sec ≤ 60 then cfg.cooldown_global_sec
  else
    adaptive_cooldown st.consecutive_losses |evalDrawdown st equity|
      (evalVolatility cfg ph sym) (d.confidence.getD (7 / 10))

/-- The stop percentage of stage 6: the decision's `stop_loss_pct` when
numeric and positive, else the ATR-derived stop
(src/risk_manager.py lines 469-474). -/
def evalStopPct (cfg : RiskConfig) (ph : List (String × List ℚ)) (d : DecisionBody)
    (sym : String) : ℚ :=
  let risk := d.risk.getD {}
  match risk.stop_loss_pct with
  | some s =>
    if s > 0 then s
    else cfg.atr_mult_stop * max cfg.atr_floor_bps (atrProxyBps cfg ((ph.lookup sym).getD [])) * (1 / 10000)
  | none => cfg.atr_mult_stop * max cfg.atr_floor_bps (atrProxyBps cfg ((ph.lookup sym).getD [])) * (1 / 10000)

/-- The deviation-guard test of stage 4: true exactly when the order is a
limit order with a truthy limit price whose tick-aligned value deviates
from the market price by more than `deviation_guard_bps`
(src/risk_manager.py lines 448-456). -/
def evalDevReject (cfg : RiskConfig) (d : DecisionBody) (sym : String) (px : ℚ) : Bool :=
  if d.order_type.getD "market" = "limit" then
    match d.limit_price with
    | some p =>
      if p ≠ 0 then
        decide (|align_price p (getRule cfg sym) - px| / px * 10000 > cfg.deviation_guard_bps)
      else false
    | none => false
  else false

/-- The quantity of stage 6 after risk budgeting, all caps, the
model-suggested size and lot-step alignment
(src/risk_manager.py lines 458-506). -/
def evalSizedQuantity (cfg : RiskConfig) (ph : List (String × List ℚ)) (st : RiskState)
    (d : DecisionBody) (balance : Balance) (sym : String) (px equity : ℚ) : ℚ :=
  let avail_usdt := match balance.usdt with
    | some a => a
    | none => balance.available.getD 0
  let symbol_expo_cap := cfg.max_symbol_exposure_pct * equity
  let reserve_usdt := cfg.balance_reserve_pct * equity
  let spendable_usdt := max 0 (avail_usdt - reserve_usdt)
  let stop_pct := evalStopPct cfg ph d sym
  let raw_conf := d.confidence.getD (7 / 10)
  let ai_confidence := max 0 (min 1 raw_conf)
  let R := calculate_dynamic_position_size cfg cfg.risk_per_trade_pct ai_confidence
    (atrProxyBps cfg ((ph.lookup sym).getD [])) st.consecutive_losses st.consecutive_wins equity
  let stop_distance := max (stop_pct * px) eps9
  let size_raw := R / stop_distance
  let cap1 := symbol_expo_cap / px
  let cap2 := cfg.max_trade_ratio * equity / px
  let cap3 := spendable_usdt / (px * (1 + cfg.fee_rate_bps * (1 / 10000)))
  let size_raw := match d.size with
    | some ms => if ms > 0 then min size_raw ms else size_raw
    | none => size_raw
  let size := max 0 (min (min (min size_raw cap1) cap2) cap3)
  align_size size (getRule cfg sym)

/-- 期望收益比检查 — stage 7's reward/risk screen on the decision's raw
`take_profit_pct`/`stop_loss_pct` (src/risk_manager.py lines 513-539);
`none` means the screen does not reject. -/
def rewardRiskCheck (cfg : RiskConfig) (tp_pct sl_pct : ℚ) : Option Reason :=
  if tp_pct > 0 ∧ sl_pct > 0 then
    let raw_r := tp_pct / sl_pct
    let fee := cfg.fee_rate_bps * (1 / 10000)
    let total_fee_impact := 2 * fee
    let effective_tp := max 0 (tp_pct - total_fee_impact)
    let effective_sl := sl_pct + total_fee_impact
    let effective_r := effective_tp / max eps9 effective_sl
    if raw_r < 3 / 2 then some .rawRTooLow
    else if effective_r < 1 then some .effectiveRTooLow
    else none
  else none

/-- Stages 3-7 of `pre_trade_checks` (per-symbol cooldown, deviation guard,
balance constraints, dynamic sizing, reward/risk screen, open-risk cap,
admission), src/risk_manager.py lines 442-559.  `st` is the state after
stage 2.5 (it may have had `consecutive_losses` reset by the early
unlock). -/
def stageSizingOnward (cfg : RiskConfig) (ph : List (String × List ℚ)) (st : RiskState)
    (d : DecisionBody) (balance : Balance) (now : ℤ) (sym side : String)
    (px equity : ℚ) : Verdict :=
  -- ========== 阶段 3: 频率限制 ==========
  let last_ts := (st.last_trade_ts.lookup sym).getD 0
  if now - last_ts < cfg.symbol_cooldown_sec then rejectV (.symbolCooldown sym)
  else
    -- ========== 阶段 4: 价格偏离检查 ==========
    let order_type := d.order_type.getD "market"
    let rule := getRule cfg sym
    let limit_px : Option ℚ :=
      if order_type = "limit" then
        match d.limit_price with
        | some p => if p ≠ 0 then some (align_price p rule) else some p
        | none => none
      else d.limit_price
    if evalDevReject cfg d sym px then rejectV .limitDeviation
    else
      -- ========== 阶段 5/6: 余额约束 + 动态 Sizing ==========
      let size := evalSizedQuantity cfg ph st d balance sym px equity
      if size < rule.lot_size_min then rejectV .sizeBelowMin
      else
        -- ========== 阶段 7: 期望收益比检查 ==========
        let risk := d.risk.getD {}
        let tp_pct := (risk.take_profit_pct).getD 0
        let sl_pct := (risk.stop_loss_pct).getD 0
        match rewardRiskCheck cfg tp_pct sl_pct with
        | some r => rejectV r
        | none =>
          -- ========== 阶段 7: 风险合规检查 ==========
          let stop_pct := evalStopPct cfg ph d sym
          let open_risk_after := estimate_open_risk_after cfg ph st.open_positions sym side size px stop_pct
          if open_risk_after > cfg.max_open_risk_pct * equity then rejectV .openRiskExceed
          else
            (true, some { symbol := sym, side := side, order_type := order_type, size := size,
                          limit_price := if order_type = "limit" then limit_px else none }, .ok)

/-- Stage 2.5 of `pre_trade_checks`: the adaptive cooldown computation, the
global loss-streak cooldown gate and the early-unlock rule
(src/risk_manager.py lines 390-440), then stages 3-7. -/
def stageCooldownGate (m : Manager) (d : DecisionBody)
    (balance : Balance) (now : ℤ) (sym side : String) (px equity : ℚ) :
    Verdict × Manager :=
  let volatility := evalVolatility m.cfg m.price_history sym
  let ai_confidence := d.confidence.getD (7 / 10)
  let cooldown_time := evalCooldownTime m.cfg m.price_history m.state d sym equity
  let m1 : Manager := { m with current_cooldown := cooldown_time }
  if m.state.consecutive_losses ≥ m.cfg.max_consecutive_losses then
    if m.state.last_trade_ts = [] then
      -- 没有历史交易记录，跳过冷却检查
      (stageSizingOnward m.cfg m.price_history m.state d balance now sym side px equity, m1)
    else
      let last_ts := listMaxD 0 (m.state.last_trade_ts.map Prod.snd)
      let elapsed := now - last_ts
      if elapsed < cooldown_time then
        if volatility < 1 / 100 ∧ ai_confidence ≥ 8 / 10 then
          -- 智能提前解锁：重置连亏计数并继续
          let st2 := { m.state with consecutive_losses := 0 }
          let m2 := { m1 with state := st2 }
          (stageSizingOnward m.cfg m.price_history st2 d balance now sym side px equity, m2)
        else
          (rejectV .globalCooldown, m1)
      else
        (stageSizingOnward m.cfg m.price_history m.state d balance now sym side px equity, m1)
  else
    (stageSizingOnward m.cfg m.price_history m.state d balance now sym side px equity, m1)

/-- Stage 2 and 2.3 of `pre_trade_checks`: the kill switch and the
invalidation-condition check (src/risk_manager.py lines 378-388), then
stage 2.5 onward. -/
def stageKillSwitch (m : Manager) (d : DecisionBody) (market : List (String × MarketRow))
    (balance : Balance) (checkInv : InvChecker) (now : ℤ) (sym side : String)
    (px equity : ℚ) : Verdict × Manager :=
  let dd := evalDrawdown m.state equity
  if dd ≤ -m.cfg.daily_loss_limit_pct then (rejectV .killSwitch, m)
  else
    let inv_cond := (d.exit_plan.bind ExitPlan.invalidation_condition).getD ""
    if inv_cond ≠ "" then
      let res := checkInv inv_cond sym market
      if res.1 then (rejectV (.invalidation res.2), m)
      else stageCooldownGate m d balance now sym side px equity
    else stageCooldownGate m d balance now sym side px equity

/-- 交易前风控检查 — `RiskManager.pre_trade_checks`
(src/risk_manager.py lines 301-559).  Returns the verdict triple and the
manager (whose state/current_cooldown the source mutates in place).  The
`decision` argument is the inner `decision` dict; the structural `try`
of stage 1 cannot fail on typed input. -/
def preTradeChecks (m : Manager) (d : DecisionBody) (market : List (String × MarketRow))
    (balance : Balance) (equityProvider : Option ℚ) (now : ℤ) (checkInv : InvChecker) :
    Verdict × Manager :=
  -- ========== 阶段 1: 快速失败检查 ==========
  if d.symbol.getD "" = "" then (rejectV .missingSymbol, m)
  else
    let sym := d.symbol.getD ""
    if ¬(d.side = some "buy" ∨ d.side = some "sell" ∨ d.side = some "hold") then
      (rejectV (.invalidSide d.side), m)
    else if d.side = some "hold" then (rejectV .holdNoOrder, m)
    else
      let side := d.side.getD ""
      match (market.lookup sym).bind MarketRow.price with
      | none => (rejectV (.priceUnavailable sym), m)
      | some px =>
        if px ≤ 0 then (rejectV (.priceUnavailable sym), m)
        else
          let equity := estimateEquity equityProvider
          if equity ≤ 0 then (rejectV .equityUnavailable, m)
          else
            -- ========== 阶段 1.5: 3m 极端信号检测 ==========
            match (market.lookup sym).bind MarketRow.tf3m with
            | some c =>
              let rsi3m : ℚ := match c.rsi14 with
                | some v => if v = 0 then 50 else v
                | none => 50
              let adx3m := c.adx14.getD 0
              if rsi3m > 90 then (rejectV .rsi3mOverbought, m)
              else if rsi3m < 10 then (rejectV .rsi3mOversold, m)
              else if adx3m > 80 then (rejectV .adx3mExtreme, m)
              else stageKillSwitch m d market balance checkInv now sym side px equity
            | none => stageKillSwitch m d market balance checkInv now sym side px equity

/-- 交易后状态更新 — `post_trade_update` (src/risk_manager.py lines
561-614); the synchronous `_save_state` call is I/O and outside the model. -/
def post_trade_update (st : RiskState) (now : ℤ) (symbol : String)
    (filled_size fill_price realized_pnl : ℚ) (side : String) : RiskState :=
  let st1 := { st with last_trade_ts := assocSet st.last_trade_ts symbol now }
  let st2 := { st1 with realized_pnl_today := st1.realized_pnl_today + realized_pnl }
  let st3 :=
    if realized_pnl < 0 then
      { st2 with consecutive_losses := st2.consecutive_losses + 1, consecutive_wins := 0 }
    else if realized_pnl > 0 then
      { st2 with consecutive_losses := 0, consecutive_wins := st2.consecutive_wins + 1 }
    else st2
  let st4 :=
    match st3.open_positions.lookup symbol with
    | none =>
      let newPos : Position := { side := side, qty := filled_size, avg_price := fill_price }
      { st3 with open_positions := assocSet st3.open_positions symbol newPos }
    | some pos =>
      let total_qty := pos.qty + filled_size
      if total_qty ≠ 0 then
        let newPos : Position :=
          { pos with
            avg_price := (pos.qty * pos.avg_price + filled_size * fill_price) / total_qty,
            qty := total_qty }
        { st3 with open_positions := assocSet st3.open_positions symbol newPos }
      else
        { st3 with open_positions := assocDel st3.open_positions symbol }
  { st4 with symbol_exposure := assocSet st4.symbol_exposure symbol |filled_size * fill_price| }

/-- The spec's CooldownModel formula (§4.2) exactly as written: a
real-valued clamp of base·loss_factor·dd_factor·vol_factor·conf_factor to
[180, 3600], with no integer truncation.  Kept separate from
`adaptive_cooldown` so the two can be compared. -/
def cooldownSpecClamp (consecutive_losses : ℤ) (drawdown_pct volatility_pct confidence : ℚ) : ℚ :=
  let base : ℚ := 300
  let loss_factor : ℚ := 1 + (consecutive_losses : ℚ) * (3 / 10)
  let dd_factor : ℚ := 1 + (drawdown_pct / (5 / 100)) * (1 / 2)
  let vol_factor : ℚ := 1 + (volatility_pct / (2 / 100)) * (1 / 2)
  let conf_factor : ℚ := if confidence < 1 / 2 then 2 else 1
  max 180 (min (base * loss_factor * dd_factor * vol_factor * conf_factor) 3600)

/-!  Concrete fixtures used by witnesses and counterexamples: a BTC-USDT
account in the round-trip scenario of spec §8 and a few variations. -/

def btcRule : SymbolRule := { price_tick := 1 / 10, lot_size_min := 1 / 1000, lot_size_step := 1 / 1000 }

def cfgBTC : RiskConfig := { symbol_rules := [("BTC-USDT", btcRule)] }

def st0 : RiskState := { date := "2025-01-01", day_open_equity := 100000 }

def mgr0 : Manager := { cfg := cfgBTC, state := st0 }

def d0 : DecisionBody :=
  { symbol := some "BTC-USDT", side := some "buy",
    risk := some { stop_loss_pct := some (1 / 100), take_profit_pct := some (2 / 100) } }

def dHold : DecisionBody := { d0 with side := some "hold" }

def dHoldNoSym : DecisionBody := { side := some "hold" }

def mkt0 : List (String × MarketRow) := [("BTC-USDT", { price := some 50000 })]

def bal0 : Balance := { usdt := some 100000 }

/-- An invalidation evaluator that never triggers. -/
def chk0 : InvChecker := fun _ _ _ => (false, "")

/-- An invalidation evaluator that always triggers. -/
def chkTrue : InvChecker := fun c _ _ => (true, c)

/-- Loss-streak state: three consecutive losses, last trade 100 s before
the evaluation time 1000000. -/
def stU : RiskState :=
  { date := "2025-01-01", day_open_equity := 100000, consecutive_losses := 3,
    last_trade_ts := [("BTC-USDT", 999900)] }

def mgrU : Manager := { cfg := cfgBTC, state := stU }

/-- High-confidence decision triggering the early unlock. -/
def dU : DecisionBody := { d0 with confidence := some (9 / 10) }

/-- Day-open equity below the 1e-9 denominator clamp. -/
def stTiny : RiskState := { date := "2025-01-01", day_open_equity := 1 / 10000000000 }

def mgrTiny : Manager := { cfg := cfgBTC, state := stTiny }

/-- Symbol rule with a zero lot step (alignment passes quantities through). -/
def cfgZeroStep : RiskConfig :=
  { symbol_rules := [("BTC-USDT", { price_tick := 1 / 10, lot_size_min := 0, lot_size_step := 0 })] }

def mgrZeroStep : Manager := { cfg := cfgZeroStep, state := st0 }

/-- Zero-fee config, used to exercise the effective-R denominator clamp. -/
def cfgFee0 : RiskConfig := { fee_rate_bps := 0, symbol_rules := [("BTC-USDT", btcRule)] }

def mgrFee0 : Manager := { cfg := cfgFee0, state := st0 }

/-- Decision with stop 1e-10 and take-profit 5e-10. -/
def dTinySl : DecisionBody :=
  { symbol := some "BTC-USDT", side := some "buy",
    risk := some { stop_loss_pct := some (1 / 10000000000), take_profit_pct := some (5 / 10000000000) } }

/-- Two-win streak state for the record-fill witness. -/
def stW : RiskState := { date := "2025-01-01", day_open_equity := 100000, consecutive_wins := 2 }

/-- Decision carrying an exit-plan invalidation condition. -/
def dInv : DecisionBody :=
  { d0 with exit_plan := some { invalidation_condition := some "3m RSI above 90" } }

/-!  Helper lemmas shared by the claim theorems. -/

/-- A verdict is well-formed when approval comes with an order and the "ok"
reason, and rejection comes with no order. -/
def wellFormedV (v : Verdict) : Prop :=
  (v.1 = true ∧ v.2.1.isSome = true ∧ v.2.2 = Reason.ok) ∨ (v.1 = false ∧ v.2.1 = none)

theorem rewardRiskCheck_cases (cfg : RiskConfig) (tp sl : ℚ) :
    rewardRiskCheck cfg tp sl = none ∨
    rewardRiskCheck cfg tp sl = some .rawRTooLow ∨
    rewardRiskCheck cfg tp sl = some .effectiveRTooLow := by
  simp only [rewardRiskCheck]
  split
  · split
    · simp
    · split
      · simp
      · simp
  · simp

theorem stageSizingOnward_wf (cfg : RiskConfig) (ph : List (String × List ℚ)) (st : RiskState)
    (d : DecisionBody) (bal : Balance) (now : ℤ) (sym side : String) (px equity : ℚ) :
    wellFormedV (stageSizingOnward cfg ph st d bal now sym side px equity) := by
  simp only [stageSizingOnward, rejectV, wellFormedV]
  repeat' split
  all_goals simp

theorem stageSizingOnward_reason (cfg : RiskConfig) (ph : List (String × List ℚ)) (st : RiskState)
    (d : DecisionBody) (bal : Balance) (now : ℤ) (sym side : String) (px equity : ℚ) :
    (stageSizingOnward cfg ph st d bal now sym side px equity).2.2 = .symbolCooldown sym ∨
    (stageSizingOnward cfg ph st d bal now sym side px equity).2.2 = .limitDeviation ∨
    (stageSizingOnward cfg ph st d bal now sym side px equity).2.2 = .sizeBelowMin ∨
    rewardRiskCheck cfg (((d.risk.getD {}).take_profit_pct).getD 0) (((d.risk.getD {}).stop_loss_pct).getD 0) =
      some (stageSizingOnward cfg ph st d bal now sym side px equity).2.2 ∨
    (stageSizingOnward cfg ph st d bal now sym side px equity).2.2 = .openRiskExceed ∨
    (stageSizingOnward cfg ph st d bal now sym side px equity).2.2 = .ok := by
  simp only [stageSizingOnward, rejectV]
  repeat' split
  all_goals simp_all

theorem stageCooldownGate_cases (m : Manager) (d : DecisionBody) (bal : Balance) (now : ℤ)
    (sym side : String) (px equity : ℚ) :
    (stageCooldownGate m d bal now sym side px equity).1 = rejectV .globalCooldown ∨
    (stageCooldownGate m d bal now sym side px equity).1 =
      stageSizingOnward m.cfg m.price_history m.state d bal now sym side px equity ∨
    (stageCooldownGate m d bal now sym side px equity).1 =
      stageSizingOnward m.cfg m.price_history { m.state with consecutive_losses := 0 }
        d bal now sym side px equity := by
  simp only [stageCooldownGate]
  repeat' split
  all_goals simp

theorem stageCooldownGate_state (m : Manager) (d : DecisionBody) (bal : Balance) (now : ℤ)
    (sym side : String) (px equity : ℚ) :
    (stageCooldownGate m d bal now sym side px equity).2.state = m.state ∨
    (stageCooldownGate m d bal now sym side px equity).2.state =
      { m.state with consecutive_losses := 0 } := by
  simp only [stageCooldownGate]
  repeat' split
  all_goals simp

theorem stageSizingOnward_ne (cfg : RiskConfig) (ph : List (String × List ℚ)) (st : RiskState)
    (d : DecisionBody) (bal : Balance) (now : ℤ) (sym side : String) (px equity : ℚ) :
    (stageSizingOnward cfg ph st d bal now sym side px equity).2.2 ≠ .killSwitch ∧
    (stageSizingOnward cfg ph st d bal now sym side px equity).2.2 ≠ .globalCooldown := by
  constructor <;> intro hk <;>
    rcases stageSizingOnward_reason cfg ph st d bal now sym side px equity with h | h | h | h | h | h <;>
      rcases rewardRiskCheck_cases cfg (((d.risk.getD {}).take_profit_pct).getD 0)
        (((d.risk.getD {}).stop_loss_pct).getD 0) with h2 | h2 | h2 <;>
        simp_all

theorem stageCooldownGate_ne_kill (m : Manager) (d : DecisionBody) (bal : Balance) (now : ℤ)
    (sym side : String) (px equity : ℚ) :
    (stageCooldownGate m d bal now sym side px equity).1.2.2 ≠ .killSwitch := by
  rcases stageCooldownGate_cases m d bal now sym side px equity with h | h | h <;> rw [h]
  · simp [rejectV]
  · exact (stageSizingOnward_ne _ _ _ _ _ _ _ _ _ _).1
  · exact (stageSizingOnward_ne _ _ _ _ _ _ _ _ _ _).1

theorem stageKillSwitch_kill_iff (m : Manager) (d : DecisionBody)
    (market : List (String × MarketRow)) (bal : Balance) (chk : InvChecker) (now : ℤ)
    (sym side : String) (px equity : ℚ) :
    ((stageKillSwitch m d market bal chk now sym side px equity).1.2.2 = .killSwitch) ↔
      evalDrawdown m.state equity ≤ -m.cfg.daily_loss_limit_pct := by
  simp only [stageKillSwitch, rejectV]
  split
  · simp_all
  · rename_i hdd
    simp only [hdd, iff_false]
    repeat' split
    all_goals first
      | simp
      | exact stageCooldownGate_ne_kill m d bal now sym side px equity

theorem stageKillSwitch_state (m : Manager) (d : DecisionBody)
    (market : List (String × MarketRow)) (bal : Balance) (chk : InvChecker) (now : ℤ)
    (sym side : String) (px equity : ℚ) :
    (stageKillSwitch m d market bal chk now sym side px equity).2.state = m.state ∨
    (stageKillSwitch m d market bal chk now sym side px equity).2.state =
      { m.state with consecutive_losses := 0 } := by
  simp only [stageKillSwitch]
  repeat' split
  all_goals first
    | simp
    | exact stageCooldownGate_state m d bal now sym side px equity

theorem preTradeChecks_state (m : Manager) (d : DecisionBody)
    (market : List (String × MarketRow)) (bal : Balance) (ep : Option ℚ) (now : ℤ)
    (chk : InvChecker) :
    (preTradeChecks m d market bal ep now chk).2.state = m.state ∨
    (preTradeChecks m d market bal ep now chk).2.state =
      { m.state with consecutive_losses := 0 } := by
  simp only [preTradeChecks]
  repeat' split
  all_goals first
    | simp
    | apply stageKillSwitch_state

theorem preTradeChecks_reach (m : Manager) (d : DecisionBody)
    (market : List (String × MarketRow)) (bal : Balance) (now : ℤ) (chk : InvChecker)
    (sym : String) (px equity : ℚ)
    (hsym : d.symbol = some sym) (hne : sym ≠ "")
    (hside : d.side = some "buy" ∨ d.side = some "sell")
    (hpx : (market.lookup sym).bind MarketRow.price = some px) (hpos : 0 < px)
    (heq : 0 < equity)
    (htf : (market.lookup sym).bind MarketRow.tf3m = none) :
    preTradeChecks m d market bal (some equity) now chk =
      stageKillSwitch m d market bal chk now sym (d.side.getD "") px equity := by
  simp only [preTradeChecks, estimateEquity]
  rcases hside with h | h <;>
    simp [hsym, hne, h, hpx, htf, not_le.mpr hpos, not_le.mpr heq]

theorem post_trade_update_losses (st : RiskState) (now : ℤ) (symbol : String)
    (fs fp pnl : ℚ) (side : String) :
    (post_trade_update st now symbol fs fp pnl side).consecutive_losses =
      if pnl < 0 then st.consecutive_losses + 1 else if 0 < pnl then 0 else st.consecutive_losses := by
  simp only [post_trade_update]
  repeat' split
  all_goals simp_all

theorem post_trade_update_wins (st : RiskState) (now : ℤ) (symbol : String)
    (fs fp pnl : ℚ) (side : String) :
    (post_trade_update st now symbol fs fp pnl side).consecutive_wins =
      if pnl < 0 then 0 else if 0 < pnl then st.consecutive_wins + 1 else st.consecutive_wins := by
  simp only [post_trade_update]
  repeat' split
  all_goals simp_all

/-!  The claim theorems.  Concrete witnesses and counterexamples evaluate
the engine on explicit inputs by kernel reduction, which needs the
rational-arithmetic primitives unsealed and a larger recursion budget. -/

section ConcreteEvaluation

attribute [local semireducible] Rat.add Rat.mul Rat.inv Rat.sub Rat.ofScientific

set_option maxRecDepth 100000

/-- C2 (amended): with daily_loss_limit_pct = 0.03 and day_open_equity at
least the code's 1e-9 denominator clamp, an evaluation that reaches the
kill-switch gate (valid symbol/side, positive price and equity, no 3m
extreme-signal veto) rejects with the kill-switch reason exactly when
(equity − day_open_equity) / day_open_equity ≤ −0.03; in particular a
drawdown of exactly −3.00% is rejected by that gate and −2.99% is not. -/
theorem C2_kill_switch_boundary (m : Manager) (d : DecisionBody)
    (market : List (String × MarketRow)) (bal : Balance) (now : ℤ) (chk : InvChecker)
    (sym : String) (px equity : ℚ)
    (hlim : m.cfg.daily_loss_limit_pct = 3 / 100)
    (hdo : eps9 ≤ m.state.day_open_equity)
    (hsym : d.symbol = some sym) (hne : sym ≠ "")
    (hside : d.side = some "buy" ∨ d.side = some "sell")
    (hpx : (market.lookup sym).bind MarketRow.price = some px) (hpos : 0 < px)
    (heq : 0 < equity)
    (htf : (market.lookup sym).bind MarketRow.tf3m = none) :
    ((preTradeChecks m d market bal (some equity) now chk).1.2.2 = .killSwitch) ↔
      (equity - m.state.day_open_equity) / m.state.day_open_equity ≤ -(3 / 100) := by
  rw [preTradeChecks_reach m d market bal now chk sym px equity hsym hne hside hpx hpos heq htf,
    stageKillSwitch_kill_iff]
  unfold evalDrawdown
  rw [max_eq_left hdo, hlim]

theorem C2_witness :
    (preTradeChecks mgr0 d0 mkt0 bal0 (some 97000) 1000000 chk0).1.2.2 = .killSwitch ∧
    (preTradeChecks mgr0 d0 mkt0 bal0 (some 97010) 1000000 chk0).1.2.2 ≠ .killSwitch := by
  constructor
  · exact (C2_kill_switch_boundary mgr0 d0 mkt0 bal0 1000000 chk0 "BTC-USDT" 50000 97000
      (by decide) (by decide) rfl (by decide) (Or.inl rfl) (by decide) (by norm_num)
      (by norm_num) (by decide)).mpr (by decide)
  · intro h
    have h2 := (C2_kill_switch_boundary mgr0 d0 mkt0 bal0 1000000 chk0 "BTC-USDT" 50000 97010
      (by decide) (by decide) rfl (by decide) (Or.inl rfl) (by decide) (by norm_num)
      (by norm_num) (by decide)).mp h
    revert h2
    decide

/-- C2 counterexample: with day_open_equity = 1e-10 (positive, but below
the code's 1e-9 clamp) and equity = 9.6e-11, the claimed drawdown
(equity − day_open)/day_open = −4% is at most −3%, daily_loss_limit_pct is
0.03, every earlier gate passes, yet `evaluate` does not reject with the
kill-switch reason (it goes on to reject for minimum lot size). -/
theorem C2_counterexample :
    mgrTiny.cfg.daily_loss_limit_pct = 3 / 100 ∧
    0 < mgrTiny.state.day_open_equity ∧
    ((96 / 1000000000000 : ℚ) - mgrTiny.state.day_open_equity) / mgrTiny.state.day_open_equity ≤ -(3 / 100) ∧
    (preTradeChecks mgrTiny d0 mkt0 bal0 (some (96 / 1000000000000)) 1000000 chk0).1.2.2 ≠ .killSwitch ∧
    (preTradeChecks mgrTiny d0 mkt0 bal0 (some (96 / 1000000000000)) 1000000 chk0).1.2.2 = .sizeBelowMin := by
  refine ⟨by decide, by decide, by decide, by decide, by decide⟩

/-- C6: record_fill with realized_pnl > 0 resets consecutive_losses to 0
and increments consecutive_wins; with realized_pnl < 0 it resets
consecutive_wins to 0 and increments consecutive_losses; and starting from
any state in which the two counters are not both nonzero, after one call
they are still not both nonzero. -/
theorem C6_record_fill_streaks (st : RiskState) (now : ℤ) (symbol : String)
    (fs fp pnl : ℚ) (side : String) :
    (0 < pnl → (post_trade_update st now symbol fs fp pnl side).consecutive_losses = 0 ∧
      (post_trade_update st now symbol fs fp pnl side).consecutive_wins = st.consecutive_wins + 1) ∧
    (pnl < 0 → (post_trade_update st now symbol fs fp pnl side).consecutive_wins = 0 ∧
      (post_trade_update st now symbol fs fp pnl side).consecutive_losses = st.consecutive_losses + 1) ∧
    (¬(st.consecutive_losses ≠ 0 ∧ st.consecutive_wins ≠ 0) →
      ¬((post_trade_update st now symbol fs fp pnl side).consecutive_losses ≠ 0 ∧
        (post_trade_update st now symbol fs fp pnl side).consecutive_wins ≠ 0)) := by
  rw [post_trade_update_losses, post_trade_update_wins]
  refine ⟨?_, ?_, ?_⟩
  · intro h
    simp [h, lt_asymm h]
  · intro h
    simp [h]
  · intro h
    by_cases h1 : pnl < 0
    · simp [h1]
    · by_cases h2 : 0 < pnl
      · simp [h1, h2]
      · simpa [h1, h2] using h

theorem C6_witness :
    (post_trade_update stW 100 "BTC-USDT" 1 100 5 "buy").consecutive_losses = 0 ∧
    (post_trade_update stW 100 "BTC-USDT" 1 100 5 "buy").consecutive_wins = stW.consecutive_wins + 1 :=
  (C6_record_fill_streaks stW 100 "BTC-USDT" 1 100 5 "buy").1 (by norm_num)

/-- C7 (amended): for consecutive_losses ≥ 0, drawdown ≥ 0, volatility ≥ 0
and confidence in [0,1], `adaptive_cooldown` equals the integer floor
(Python `int` truncation) of clamp(300·(1 + cl·0.3)·(1 + (dd/0.05)·0.5)·
(1 + (vol/0.02)·0.5)·(conf < 0.5 ? 2 : 1), 180, 3600); in particular the
result always lies in [180, 3600] seconds. -/
theorem C7_adaptive_cooldown_clamped (cl : ℤ) (dd vol conf : ℚ)
    (hcl : 0 ≤ cl) (hdd : 0 ≤ dd) (hvol : 0 ≤ vol) (hc0 : 0 ≤ conf) (hc1 : conf ≤ 1) :
    adaptive_cooldown cl dd vol conf = ⌊cooldownSpecClamp cl dd vol conf⌋ ∧
    180 ≤ adaptive_cooldown cl dd vol conf ∧ adaptive_cooldown cl dd vol conf ≤ 3600 := by
  refine ⟨rfl, ?_, ?_⟩
  · have h1 : ((180 : ℤ) : ℚ) ≤ cooldownSpecClamp cl dd vol conf := by
      exact_mod_cast le_max_left (180 : ℚ) _
    calc (180 : ℤ) ≤ ⌊cooldownSpecClamp cl dd vol conf⌋ := Int.le_floor.mpr h1
    _ = adaptive_cooldown cl dd vol conf := rfl
  · have h2 : cooldownSpecClamp cl dd vol conf ≤ ((3600 : ℤ) : ℚ) := by
      exact_mod_cast max_le (by norm_num) (min_le_right _ (3600 : ℚ))
    calc adaptive_cooldown cl dd vol conf = ⌊cooldownSpecClamp cl dd vol conf⌋ := rfl
    _ ≤ ⌊((3600 : ℤ) : ℚ)⌋ := Int.floor_le_floor h2
    _ = (3600 : ℤ) := Int.floor_intCast 3600

theorem C7_witness :
    adaptive_cooldown 1 (1 / 100) (2 / 100) (9 / 10) = ⌊cooldownSpecClamp 1 (1 / 100) (2 / 100) (9 / 10)⌋ ∧
    180 ≤ adaptive_cooldown 1 (1 / 100) (2 / 100) (9 / 10) ∧
    adaptive_cooldown 1 (1 / 100) (2 / 100) (9 / 10) ≤ 3600 :=
  C7_adaptive_cooldown_clamped 1 (1 / 100) (2 / 100) (9 / 10)
    (by norm_num) (by norm_num) (by norm_num) (by norm_num) (by norm_num)

/-- C7 counterexample: at consecutive_losses = 0, drawdown = 0,
volatility = 0.001, confidence = 0.7 the clamp formula evaluates to 307.5
seconds while `adaptive_cooldown` returns the truncated 307, so the
code's result does not equal the claimed clamp value. -/
theorem C7_counterexample :
    adaptive_cooldown 0 0 (1 / 1000) (7 / 10) = 307 ∧
    cooldownSpecClamp 0 0 (1 / 1000) (7 / 10) = 615 / 2 ∧
    ((adaptive_cooldown 0 0 (1 / 1000) (7 / 10) : ℤ) : ℚ) ≠ cooldownSpecClamp 0 0 (1 / 1000) (7 / 10) := by
  refine ⟨by decide, by decide, by decide⟩

/-- C8 (amended): every decision whose side is "hold" and whose symbol is
present and non-empty is rejected with no order and reason string
"hold (no order)", regardless of all other decision, market and balance
fields (an absent symbol is instead rejected as "missing symbol"). -/
theorem C8_hold_rejected (m : Manager) (d : DecisionBody)
    (market : List (String × MarketRow)) (bal : Balance) (ep : Option ℚ) (now : ℤ)
    (chk : InvChecker)
    (hside : d.side = some "hold") (hsym : d.symbol.getD "" ≠ "") :
    preTradeChecks m d market bal ep now chk = ((false, none, .holdNoOrder), m) ∧
    reasonText .holdNoOrder = "hold (no order)" := by
  refine ⟨?_, rfl⟩
  simp only [preTradeChecks, rejectV]
  simp [hsym, hside]

theorem C8_witness :
    preTradeChecks mgr0 dHold mkt0 bal0 (some 100000) 1000000 chk0 = ((false, none, .holdNoOrder), mgr0) ∧
    reasonText .holdNoOrder = "hold (no order)" :=
  C8_hold_rejected mgr0 dHold mkt0 bal0 (some 100000) 1000000 chk0 rfl (by decide)

/-- C8 counterexample: on a hold decision the reason string returned by
the code is "hold (no order)", not "hold"; and a hold decision without a
symbol is rejected as "missing symbol", not as hold. -/
theorem C8_counterexample :
    reasonText (preTradeChecks mgr0 dHold mkt0 bal0 (some 100000) 1000000 chk0).1.2.2 ≠ "hold" ∧
    (preTradeChecks mgr0 dHoldNoSym mkt0 bal0 (some 100000) 1000000 chk0).1.2.2 = .missingSymbol := by
  refine ⟨by decide, by decide⟩

/-- C9 (amended): `evaluate` leaves the persisted EngineState unchanged in
every case except the early-unlock path, where its only mutation is
resetting consecutive_losses to 0; `record_fill` is the only other
mutator of EngineState. -/
theorem C9_evaluate_state (m : Manager) (d : DecisionBody)
    (market : List (String × MarketRow)) (bal : Balance) (ep : Option ℚ) (now : ℤ)
    (chk : InvChecker) :
    (preTradeChecks m d market bal ep now chk).2.state = m.state ∨
    (preTradeChecks m d market bal ep now chk).2.state =
      { m.state with consecutive_losses := 0 } := by
  simp only [preTradeChecks]
  repeat' split
  all_goals first
    | simp
    | apply stageKillSwitch_state

/-- C9 counterexample: in the early-unlock scenario (three consecutive
losses, active cooldown, volatility 0.25% < 1%, confidence 0.9 ≥ 0.8) the
state after `evaluate` differs from the state before: consecutive_losses
has been reset from 3 to 0, even though the trade is then rejected by the
per-symbol cooldown. -/
theorem C9_counterexample :
    (preTradeChecks mgrU dU mkt0 bal0 (some 100000) 1000000 chk0).2.state ≠ mgrU.state ∧
    (preTradeChecks mgrU dU mkt0 bal0 (some 100000) 1000000 chk0).2.state.consecutive_losses = 0 ∧
    mgrU.state.consecutive_losses = 3 := by
  refine ⟨by decide, by decide, by decide⟩

theorem stageKillSwitch_pass (m : Manager) (d : DecisionBody)
    (market : List (String × MarketRow)) (bal : Balance) (chk : InvChecker) (now : ℤ)
    (sym side : String) (px equity : ℚ)
    (hdd : ¬(evalDrawdown m.state equity ≤ -m.cfg.daily_loss_limit_pct))
    (hic : (d.exit_plan.bind ExitPlan.invalidation_condition).getD "" = "") :
    stageKillSwitch m d market bal chk now sym side px equity =
      stageCooldownGate m d bal now sym side px equity := by
  simp only [stageKillSwitch]
  rw [if_neg hdd, hic]
  simp

theorem stageCooldownGate_active (m : Manager) (d : DecisionBody) (bal : Balance) (now : ℤ)
    (sym side : String) (px equity : ℚ)
    (hcl : m.state.consecutive_losses ≥ m.cfg.max_consecutive_losses)
    (hts : ¬(m.state.last_trade_ts = []))
    (helapsed : now - listMaxD 0 (m.state.last_trade_ts.map Prod.snd) <
      evalCooldownTime m.cfg m.price_history m.state d sym equity) :
    (¬(evalVolatility m.cfg m.price_history sym < 1 / 100 ∧ d.confidence.getD (7 / 10) ≥ 8 / 10) →
      stageCooldownGate m d bal now sym side px equity =
        (rejectV .globalCooldown,
         { m with current_cooldown := evalCooldownTime m.cfg m.price_history m.state d sym equity })) ∧
    ((evalVolatility m.cfg m.price_history sym < 1 / 100 ∧ d.confidence.getD (7 / 10) ≥ 8 / 10) →
      stageCooldownGate m d bal now sym side px equity =
        (stageSizingOnward m.cfg m.price_history { m.state with consecutive_losses := 0 }
          d bal now sym side px equity,
         { m with
            current_cooldown := evalCooldownTime m.cfg m.price_history m.state d sym equity,
            state := { m.state with consecutive_losses := 0 } })) := by
  refine ⟨?_, ?_⟩ <;> intro h <;>
    simp only [stageCooldownGate] <;>
    rw [if_pos hcl, if_neg hts, if_pos helapsed]
  · rw [if_neg h]
  · rw [if_pos h]

/-- C3: when the loss streak has reached max_consecutive_losses, the last
trade is recorded, and the elapsed time is below the required cooldown,
`evaluate` admits no trade unless volatility < 1% and confidence ≥ 0.80
hold simultaneously (so with either condition failing — e.g. volatility
≥ 1% even at confidence 1.0 — it rejects with the global-cooldown reason
and leaves the state untouched); when both hold, it resets
consecutive_losses to zero and proceeds past the cooldown gate instead of
rejecting. -/
theorem C3_loss_streak_cooldown (m : Manager) (d : DecisionBody)
    (market : List (String × MarketRow)) (bal : Balance) (now : ℤ) (chk : InvChecker)
    (sym : String) (px equity : ℚ)
    (hsym : d.symbol = some sym) (hne : sym ≠ "")
    (hside : d.side = some "buy" ∨ d.side = some "sell")
    (hpx : (market.lookup sym).bind MarketRow.price = some px) (hpos : 0 < px)
    (heq : 0 < equity)
    (htf : (market.lookup sym).bind MarketRow.tf3m = none)
    (hdd : ¬(evalDrawdown m.state equity ≤ -m.cfg.daily_loss_limit_pct))
    (hic : (d.exit_plan.bind ExitPlan.invalidation_condition).getD "" = "")
    (hcl : m.state.consecutive_losses ≥ m.cfg.max_consecutive_losses)
    (hts : ¬(m.state.last_trade_ts = []))
    (helapsed : now - listMaxD 0 (m.state.last_trade_ts.map Prod.snd) <
      evalCooldownTime m.cfg m.price_history m.state d sym equity) :
    (¬(evalVolatility m.cfg m.price_history sym < 1 / 100 ∧ d.confidence.getD (7 / 10) ≥ 8 / 10) →
      (preTradeChecks m d market bal (some equity) now chk).1 = (false, none, .globalCooldown) ∧
      (preTradeChecks m d market bal (some equity) now chk).2.state = m.state) ∧
    ((evalVolatility m.cfg m.price_history sym < 1 / 100 ∧ d.confidence.getD (7 / 10) ≥ 8 / 10) →
      (preTradeChecks m d market bal (some equity) now chk).2.state.consecutive_losses = 0 ∧
      (preTradeChecks m d market bal (some equity) now chk).1.2.2 ≠ .globalCooldown) := by
  rw [preTradeChecks_reach m d market bal now chk sym px equity hsym hne hside hpx hpos heq htf,
    stageKillSwitch_pass m d market bal chk now sym (d.side.getD "") px equity hdd hic]
  obtain ⟨ha, hb⟩ := stageCooldownGate_active m d bal now sym (d.side.getD "") px equity hcl hts helapsed
  constructor
  · intro h
    rw [ha h]
    exact ⟨rfl, rfl⟩
  · intro h
    rw [hb h]
    exact ⟨rfl, (stageSizingOnward_ne m.cfg m.price_history
      { m.state with consecutive_losses := 0 } d bal now sym (d.side.getD "") px equity).2⟩

theorem C3_witness :
    ((preTradeChecks mgrU d0 mkt0 bal0 (some 100000) 1000000 chk0).1 =
      (false, none, .globalCooldown) ∧
     (preTradeChecks mgrU d0 mkt0 bal0 (some 100000) 1000000 chk0).2.state = mgrU.state) ∧
    ((preTradeChecks mgrU dU mkt0 bal0 (some 100000) 1000000 chk0).2.state.consecutive_losses = 0 ∧
     (preTradeChecks mgrU dU mkt0 bal0 (some 100000) 1000000 chk0).1.2.2 ≠ .globalCooldown) := by
  constructor
  · exact (C3_loss_streak_cooldown mgrU d0 mkt0 bal0 1000000 chk0 "BTC-USDT" 50000 100000
      rfl (by decide) (Or.inl rfl) (by decide) (by norm_num) (by norm_num) (by decide)
      (by decide) (by decide) (by decide) (by decide) (by decide)).1 (by decide)
  · exact (C3_loss_streak_cooldown mgrU dU mkt0 bal0 1000000 chk0 "BTC-USDT" 50000 100000
      rfl (by decide) (Or.inl rfl) (by decide) (by norm_num) (by norm_num) (by decide)
      (by decide) (by decide) (by decide) (by decide) (by decide)).2 (by decide)

/-- C10: a decision without a confidence field behaves exactly like the
same decision with confidence 0.7, through the whole evaluation (covering
both the cooldown/early-unlock computation and the dynamic sizing); at
confidence 0.7 the sizing scale is 0.5 + 0.7 = 1.2 (equivalently, a 1.2×
base-risk multiplier at the neutral scale); and under an active
loss-streak cooldown an absent confidence (0.7 < 0.80) can never satisfy
the early-unlock threshold, so the trade is rejected with the
global-cooldown reason regardless of volatility. -/
theorem C10_default_confidence (m : Manager) (d : DecisionBody)
    (market : List (String × MarketRow)) (bal : Balance) (ep : Option ℚ) (now : ℤ)
    (chk : InvChecker) (sym : String) (px equity : ℚ) :
    (preTradeChecks m { d with confidence := none } market bal ep now chk =
      preTradeChecks m { d with confidence := some (7 / 10) } market bal ep now chk) ∧
    (∀ (cfg : RiskConfig) (b v : ℚ) (cl cw : ℤ) (e : ℚ),
      calculate_dynamic_position_size cfg b (7 / 10) v cl cw e =
        calculate_dynamic_position_size cfg (b * (12 / 10)) (1 / 2) v cl cw e) ∧
    (d.confidence = none →
      d.symbol = some sym → sym ≠ "" →
      (d.side = some "buy" ∨ d.side = some "sell") →
      (market.lookup sym).bind MarketRow.price = some px → 0 < px →
      0 < equity →
      (market.lookup sym).bind MarketRow.tf3m = none →
      ¬(evalDrawdown m.state equity ≤ -m.cfg.daily_loss_limit_pct) →
      (d.exit_plan.bind ExitPlan.invalidation_condition).getD "" = "" →
      m.state.consecutive_losses ≥ m.cfg.max_consecutive_losses →
      ¬(m.state.last_trade_ts = []) →
      now - listMaxD 0 (m.state.last_trade_ts.map Prod.snd) <
        evalCooldownTime m.cfg m.price_history m.state d sym equity →
      (preTradeChecks m d market bal (some equity) now chk).1 =
        (false, none, .globalCooldown)) := by
  refine ⟨rfl, ?_, ?_⟩
  · intro cfg b v cl cw e
    simp only [calculate_dynamic_position_size]
    norm_num
  · intro hconf hsym hne hside hpx hpos heq htf hdd hic hcl hts helapsed
    rw [preTradeChecks_reach m d market bal now chk sym px equity hsym hne hside hpx hpos heq htf,
      stageKillSwitch_pass m d market bal chk now sym (d.side.getD "") px equity hdd hic]
    obtain ⟨ha, _⟩ := stageCooldownGate_active m d bal now sym (d.side.getD "") px equity hcl hts helapsed
    rw [ha (by rw [hconf]; rintro ⟨_, hc⟩; norm_num at hc)]
    rfl

theorem C10_witness :
    (preTradeChecks mgrU d0 mkt0 bal0 (some 100000) 1000000 chk0).1 =
      (false, none, .globalCooldown) :=
  (C10_default_confidence mgrU d0 mkt0 bal0 (some 100000) 1000000 chk0 "BTC-USDT" 50000
    100000).2.2 rfl rfl (by decide) (Or.inl rfl) (by decide) (by norm_num) (by norm_num)
    (by decide) (by decide) (by decide) (by decide) (by decide) (by decide)

theorem stageCooldownGate_wf (m : Manager) (d : DecisionBody) (bal : Balance) (now : ℤ)
    (sym side : String) (px equity : ℚ) :
    wellFormedV (stageCooldownGate m d bal now sym side px equity).1 := by
  rcases stageCooldownGate_cases m d bal now sym side px equity with h | h | h <;> rw [h]
  · simp [wellFormedV, rejectV]
  · exact stageSizingOnward_wf m.cfg m.price_history m.state d bal now sym side px equity
  · exact stageSizingOnward_wf m.cfg m.price_history _ d bal now sym side px equity

theorem stageKillSwitch_cases (m : Manager) (d : DecisionBody)
    (market : List (String × MarketRow)) (bal : Balance) (chk : InvChecker) (now : ℤ)
    (sym side : String) (px equity : ℚ) :
    (stageKillSwitch m d market bal chk now sym side px equity).1 = rejectV .killSwitch ∨
    (∃ r, (stageKillSwitch m d market bal chk now sym side px equity).1 =
      rejectV (.invalidation r)) ∨
    (stageKillSwitch m d market bal chk now sym side px equity).1 =
      (stageCooldownGate m d bal now sym side px equity).1 := by
  simp only [stageKillSwitch]
  repeat' split
  all_goals first
    | exact Or.inr (Or.inl ⟨_, rfl⟩)
    | simp

theorem stageKillSwitch_wf (m : Manager) (d : DecisionBody)
    (market : List (String × MarketRow)) (bal : Balance) (chk : InvChecker) (now : ℤ)
    (sym side : String) (px equity : ℚ) :
    wellFormedV (stageKillSwitch m d market bal chk now sym side px equity).1 := by
  rcases stageKillSwitch_cases m d market bal chk now sym side px equity with h | ⟨r, h⟩ | h <;>
    rw [h]
  · simp [wellFormedV, rejectV]
  · simp [wellFormedV, rejectV]
  · exact stageCooldownGate_wf m d bal now sym side px equity

theorem preTradeChecks_wf (m : Manager) (d : DecisionBody)
    (market : List (String × MarketRow)) (bal : Balance) (ep : Option ℚ) (now : ℤ)
    (chk : InvChecker) :
    wellFormedV (preTradeChecks m d market bal ep now chk).1 := by
  simp only [preTradeChecks]
  repeat' split
  all_goals first
    | apply stageKillSwitch_wf
    | simp [wellFormedV, rejectV]

/-- C1: evaluate always returns an (admitted, order, reason) triple — in
the embedding a total function whose rejections carry no order and whose
admissions carry an order with reason "ok"; a missing symbol or an invalid
side yields the corresponding validation rejection; an equity-provider
failure (the injected accessor absent or raising, hence equity 0) yields
the "equity unavailable" rejection; and a decision carrying an
exit_plan.invalidation_condition is either rejected through the external
invalidation evaluator's verdict or evaluated on, for every possible
evaluator — never a crash. -/
theorem C1_evaluate_never_crashes (m : Manager) (d : DecisionBody)
    (market : List (String × MarketRow)) (bal : Balance) (ep : Option ℚ) (now : ℤ)
    (chk : InvChecker) (sym : String) (px equity : ℚ) (r : String) :
    wellFormedV (preTradeChecks m d market bal ep now chk).1 ∧
    (d.symbol.getD "" = "" →
      preTradeChecks m d market bal ep now chk = ((false, none, .missingSymbol), m)) ∧
    (d.symbol.getD "" ≠ "" →
      ¬(d.side = some "buy" ∨ d.side = some "sell" ∨ d.side = some "hold") →
      preTradeChecks m d market bal ep now chk = ((false, none, .invalidSide d.side), m)) ∧
    (d.symbol = some sym → sym ≠ "" →
      (d.side = some "buy" ∨ d.side = some "sell") →
      (market.lookup sym).bind MarketRow.price = some px → 0 < px →
      ep = none →
      preTradeChecks m d market bal ep now chk = ((false, none, .equityUnavailable), m)) ∧
    (d.symbol = some sym → sym ≠ "" →
      (d.side = some "buy" ∨ d.side = some "sell") →
      (market.lookup sym).bind MarketRow.price = some px → 0 < px →
      ep = some equity → 0 < equity →
      (market.lookup sym).bind MarketRow.tf3m = none →
      ¬(evalDrawdown m.state equity ≤ -m.cfg.daily_loss_limit_pct) →
      (d.exit_plan.bind ExitPlan.invalidation_condition).getD "" ≠ "" →
      chk ((d.exit_plan.bind ExitPlan.invalidation_condition).getD "") sym market = (true, r) →
      preTradeChecks m d market bal ep now chk = ((false, none, .invalidation r), m)) := by
  refine ⟨preTradeChecks_wf m d market bal ep now chk, ?_, ?_, ?_, ?_⟩
  · intro hsym
    simp only [preTradeChecks]
    simp [hsym, rejectV]
  · intro hsym hside
    simp only [preTradeChecks, rejectV]
    simp [hsym, hside]
  · intro hsym hne hside hpx hpos hep
    subst hep
    simp only [preTradeChecks, estimateEquity]
    rcases hside with h | h <;>
      simp [hsym, hne, h, hpx, not_le.mpr hpos, rejectV]
  · intro hsym hne hside hpx hpos hep heq htf hdd hic hchk
    subst hep
    rw [preTradeChecks_reach m d market bal now chk sym px equity hsym hne hside hpx hpos heq htf]
    simp only [stageKillSwitch]
    rw [if_neg hdd, if_pos hic, hchk]
    rfl

theorem C1_witness :
    preTradeChecks mgr0 d0 mkt0 bal0 none 1000000 chk0 =
      ((false, none, .equityUnavailable), mgr0) ∧
    preTradeChecks mgr0 dInv mkt0 bal0 (some 100000) 1000000 chkTrue =
      ((false, none, .invalidation "3m RSI above 90"), mgr0) ∧
    preTradeChecks mgr0 dHoldNoSym mkt0 bal0 (some 100000) 1000000 chk0 =
      ((false, none, .missingSymbol), mgr0) := by
  refine ⟨?_, ?_, ?_⟩
  · exact (C1_evaluate_never_crashes mgr0 d0 mkt0 bal0 none 1000000 chk0 "BTC-USDT" 50000 0
      "").2.2.2.1 rfl (by decide) (Or.inl rfl) (by decide) (by norm_num) rfl
  · exact (C1_evaluate_never_crashes mgr0 dInv mkt0 bal0 (some 100000) 1000000 chkTrue
      "BTC-USDT" 50000 100000 "3m RSI above 90").2.2.2.2 rfl (by decide) (Or.inl rfl)
      (by decide) (by norm_num) rfl (by norm_num) (by decide) (by decide) (by decide) (by decide)
  · exact (C1_evaluate_never_crashes mgr0 dHoldNoSym mkt0 bal0 (some 100000) 1000000 chk0
      "BTC-USDT" 50000 100000 "").2.1 (by decide)

theorem align_size_le (x : ℚ) (r : SymbolRule) (hx : 0 ≤ x) : align_size x r ≤ x := by
  unfold align_size floor_to_step
  split
  · exact hx
  · rename_i hpos
    push_neg at hpos
    split
    · exact le_refl x
    · rename_i hstep
      push_neg at hstep
      calc (⌊x / r.lot_size_step⌋ : ℚ) * r.lot_size_step
          ≤ x / r.lot_size_step * r.lot_size_step :=
            mul_le_mul_of_nonneg_right (Int.floor_le _) hstep.le
        _ = x := div_mul_cancel₀ x (ne_of_gt hstep)

theorem align_size_multiple (x : ℚ) (r : SymbolRule) (hs : 0 < r.lot_size_step) :
    ∃ k : ℤ, align_size x r = (k : ℚ) * r.lot_size_step := by
  unfold align_size floor_to_step
  split
  · exact ⟨0, by simp⟩
  · rw [if_neg (not_le.mpr hs)]
    exact ⟨⌊x / r.lot_size_step⌋, rfl⟩

theorem evalSizedQuantity_multiple (cfg : RiskConfig) (ph : List (String × List ℚ))
    (st : RiskState) (d : DecisionBody) (bal : Balance) (sym : String) (px equity : ℚ)
    (hs : 0 < (getRule cfg sym).lot_size_step) :
    ∃ k : ℤ, evalSizedQuantity cfg ph st d bal sym px equity =
      (k : ℚ) * (getRule cfg sym).lot_size_step := by
  simp only [evalSizedQuantity]
  exact align_size_multiple _ _ hs

theorem stageSizingOnward_admitted (cfg : RiskConfig) (ph : List (String × List ℚ))
    (st : RiskState) (d : DecisionBody) (bal : Balance) (now : ℤ) (sym side : String)
    (px equity : ℚ)
    (h : (stageSizingOnward cfg ph st d bal now sym side px equity).1 = true) :
    ∃ o, (stageSizingOnward cfg ph st d bal now sym side px equity).2.1 = some o ∧
      o.symbol = sym ∧
      o.size = evalSizedQuantity cfg ph st d bal sym px equity ∧
      ¬(o.size < (getRule cfg sym).lot_size_min) := by
  revert h
  simp only [stageSizingOnward, rejectV]
  repeat' split
  all_goals intro h
  all_goals simp_all

theorem stageCooldownGate_admitted (m : Manager) (d : DecisionBody) (bal : Balance) (now : ℤ)
    (sym side : String) (px equity : ℚ)
    (h : (stageCooldownGate m d bal now sym side px equity).1.1 = true) :
    ∃ o, (stageCooldownGate m d bal now sym side px equity).1.2.1 = some o ∧
      o.symbol = sym ∧
      (getRule m.cfg sym).lot_size_min ≤ o.size ∧
      (0 < (getRule m.cfg sym).lot_size_step →
        ∃ k : ℤ, o.size = (k : ℚ) * (getRule m.cfg sym).lot_size_step) := by
  rcases stageCooldownGate_cases m d bal now sym side px equity with hc | hc | hc
  · rw [hc] at h
    simp [rejectV] at h
  · rw [hc] at h ⊢
    obtain ⟨o, ho, hsy, hsz, hmin⟩ :=
      stageSizingOnward_admitted m.cfg m.price_history m.state d bal now sym side px equity h
    exact ⟨o, ho, hsy, not_lt.mp hmin, fun hs =>
      hsz ▸ evalSizedQuantity_multiple m.cfg m.price_history m.state d bal sym px equity hs⟩
  · rw [hc] at h ⊢
    obtain ⟨o, ho, hsy, hsz, hmin⟩ :=
      stageSizingOnward_admitted m.cfg m.price_history _ d bal now sym side px equity h
    exact ⟨o, ho, hsy, not_lt.mp hmin, fun hs =>
      hsz ▸ evalSizedQuantity_multiple m.cfg m.price_history _ d bal sym px equity hs⟩

theorem stageKillSwitch_admitted (m : Manager) (d : DecisionBody)
    (market : List (String × MarketRow)) (bal : Balance) (chk : InvChecker) (now : ℤ)
    (sym side : String) (px equity : ℚ)
    (h : (stageKillSwitch m d market bal chk now sym side px equity).1.1 = true) :
    ∃ o, (stageKillSwitch m d market bal chk now sym side px equity).1.2.1 = some o ∧
      o.symbol = sym ∧
      (getRule m.cfg sym).lot_size_min ≤ o.size ∧
      (0 < (getRule m.cfg sym).lot_size_step →
        ∃ k : ℤ, o.size = (k : ℚ) * (getRule m.cfg sym).lot_size_step) := by
  rcases stageKillSwitch_cases m d market bal chk now sym side px equity with hc | ⟨r, hc⟩ | hc <;>
    rw [hc] at h ⊢
  · simp [rejectV] at h
  · simp [rejectV] at h
  · exact stageCooldownGate_admitted m d bal now sym side px equity h

theorem preTradeChecks_admitted (m : Manager) (d : DecisionBody)
    (market : List (String × MarketRow)) (bal : Balance) (ep : Option ℚ) (now : ℤ)
    (chk : InvChecker)
    (h : (preTradeChecks m d market bal ep now chk).1.1 = true) :
    ∃ o, (preTradeChecks m d market bal ep now chk).1.2.1 = some o ∧
      (getRule m.cfg o.symbol).lot_size_min ≤ o.size ∧
      (0 < (getRule m.cfg o.symbol).lot_size_step →
        ∃ k : ℤ, o.size = (k : ℚ) * (getRule m.cfg o.symbol).lot_size_step) := by
  revert h
  simp only [preTradeChecks, rejectV]
  repeat' split
  all_goals intro h
  all_goals first
    | (obtain ⟨o, ho, hsy, hmin, hmul⟩ := stageKillSwitch_admitted _ _ _ _ _ _ _ _ _ _ h
       exact ⟨o, ho, hsy ▸ hmin, hsy ▸ hmul⟩)
    | simp_all

/-- C4 (amended): whenever evaluate admits an order, the order's size is
at least the symbol's lot_size_min, and — provided the symbol's
lot_size_step is positive — an exact integer multiple of the step; sizing
floors to the lot step (alignment never increases a nonnegative quantity);
and a floored quantity below lot_size_min makes the sizing stage reject
with the below-minimum-lot reason.  (With lot_size_step ≤ 0 the source's
`_floor_to_step` returns the quantity unchanged, so the multiple-of-step
part fails there.) -/
theorem C4_admitted_lot_alignment (m : Manager) (d : DecisionBody)
    (market : List (String × MarketRow)) (bal : Balance) (ep : Option ℚ) (now : ℤ)
    (chk : InvChecker) :
    ((preTradeChecks m d market bal ep now chk).1.1 = true →
      ∃ o, (preTradeChecks m d market bal ep now chk).1.2.1 = some o ∧
        (getRule m.cfg o.symbol).lot_size_min ≤ o.size ∧
        (0 < (getRule m.cfg o.symbol).lot_size_step →
          ∃ k : ℤ, o.size = (k : ℚ) * (getRule m.cfg o.symbol).lot_size_step)) ∧
    (∀ (x : ℚ) (r : SymbolRule), 0 ≤ x → align_size x r ≤ x) ∧
    (∀ (cfg2 : RiskConfig) (ph2 : List (String × List ℚ)) (st2 : RiskState)
        (d2 : DecisionBody) (bal2 : Balance) (now2 : ℤ) (sym2 side2 : String) (px2 eq2 : ℚ),
      cfg2.symbol_cooldown_sec ≤ now2 - (st2.last_trade_ts.lookup sym2).getD 0 →
      evalDevReject cfg2 d2 sym2 px2 = false →
      evalSizedQuantity cfg2 ph2 st2 d2 bal2 sym2 px2 eq2 < (getRule cfg2 sym2).lot_size_min →
      stageSizingOnward cfg2 ph2 st2 d2 bal2 now2 sym2 side2 px2 eq2 =
        rejectV .sizeBelowMin) := by
  refine ⟨preTradeChecks_admitted m d market bal ep now chk, align_size_le, ?_⟩
  intro cfg2 ph2 st2 d2 bal2 now2 sym2 side2 px2 eq2 hcd hdev hlt
  simp only [stageSizingOnward]
  rw [if_neg (not_lt.mpr hcd), hdev]
  simp only [Bool.false_eq_true, if_false]
  rw [if_pos hlt]

theorem C4_witness :
    ∃ o, (preTradeChecks mgr0 d0 mkt0 bal0 (some 100000) 1000000 chk0).1.2.1 = some o ∧
      (getRule mgr0.cfg o.symbol).lot_size_min ≤ o.size ∧
      (0 < (getRule mgr0.cfg o.symbol).lot_size_step →
        ∃ k : ℤ, o.size = (k : ℚ) * (getRule mgr0.cfg o.symbol).lot_size_step) :=
  (C4_admitted_lot_alignment mgr0 d0 mkt0 bal0 (some 100000) 1000000 chk0).1 (by decide)

/-- C4 counterexample: with a symbol rule whose lot_size_step is 0 (and
lot_size_min 0), evaluate admits an order of size 0.6, which is not an
integer multiple of the step, because `_align_size` passes quantities
through unchanged when the step is ≤ 0. -/
theorem C4_counterexample :
    (preTradeChecks mgrZeroStep d0 mkt0 bal0 (some 100000) 1000000 chk0).1.1 = true ∧
    ((preTradeChecks mgrZeroStep d0 mkt0 bal0 (some 100000) 1000000 chk0).1.2.1.map Order.size) =
      some (3 / 5) ∧
    (getRule mgrZeroStep.cfg "BTC-USDT").lot_size_step = 0 ∧
    ¬∃ k : ℤ, (3 / 5 : ℚ) = (k : ℚ) * (getRule mgrZeroStep.cfg "BTC-USDT").lot_size_step := by
  refine ⟨by decide, by decide, by decide, ?_⟩
  rintro ⟨k, hk⟩
  rw [show (getRule mgrZeroStep.cfg "BTC-USDT").lot_size_step = 0 by decide, mul_zero] at hk
  norm_num at hk

theorem stageSizingOnward_rawR (cfg : RiskConfig) (ph : List (String × List ℚ))
    (st : RiskState) (d : DecisionBody) (bal : Balance) (now : ℤ) (sym side : String)
    (px equity : ℚ)
    (h : (stageSizingOnward cfg ph st d bal now sym side px equity).2.2 = .rawRTooLow) :
    rewardRiskCheck cfg (((d.risk.getD {}).take_profit_pct).getD 0)
      (((d.risk.getD {}).stop_loss_pct).getD 0) = some .rawRTooLow := by
  rcases stageSizingOnward_reason cfg ph st d bal now sym side px equity with
    h1 | h1 | h1 | h1 | h1 | h1 <;> simp_all

theorem stageCooldownGate_rawR (m : Manager) (d : DecisionBody) (bal : Balance) (now : ℤ)
    (sym side : String) (px equity : ℚ)
    (h : (stageCooldownGate m d bal now sym side px equity).1.2.2 = .rawRTooLow) :
    rewardRiskCheck m.cfg (((d.risk.getD {}).take_profit_pct).getD 0)
      (((d.risk.getD {}).stop_loss_pct).getD 0) = some .rawRTooLow := by
  rcases stageCooldownGate_cases m d bal now sym side px equity with hc | hc | hc <;>
    rw [hc] at h
  · simp [rejectV] at h
  · exact stageSizingOnward_rawR m.cfg m.price_history m.state d bal now sym side px equity h
  · exact stageSizingOnward_rawR m.cfg m.price_history _ d bal now sym side px equity h

theorem stageKillSwitch_rawR (m : Manager) (d : DecisionBody)
    (market : List (String × MarketRow)) (bal : Balance) (chk : InvChecker) (now : ℤ)
    (sym side : String) (px equity : ℚ)
    (h : (stageKillSwitch m d market bal chk now sym side px equity).1.2.2 = .rawRTooLow) :
    rewardRiskCheck m.cfg (((d.risk.getD {}).take_profit_pct).getD 0)
      (((d.risk.getD {}).stop_loss_pct).getD 0) = some .rawRTooLow := by
  rcases stageKillSwitch_cases m d market bal chk now sym side px equity with hc | ⟨r, hc⟩ | hc <;>
    rw [hc] at h
  · simp [rejectV] at h
  · simp [rejectV] at h
  · exact stageCooldownGate_rawR m d bal now sym side px equity h

theorem preTradeChecks_rawR (m : Manager) (d : DecisionBody)
    (market : List (String × MarketRow)) (bal : Balance) (ep : Option ℚ) (now : ℤ)
    (chk : InvChecker)
    (h : (preTradeChecks m d market bal ep now chk).1.2.2 = .rawRTooLow) :
    rewardRiskCheck m.cfg (((d.risk.getD {}).take_profit_pct).getD 0)
      (((d.risk.getD {}).stop_loss_pct).getD 0) = some .rawRTooLow := by
  revert h
  simp only [preTradeChecks, rejectV]
  repeat' split
  all_goals intro h
  all_goals first
    | exact stageKillSwitch_rawR _ _ _ _ _ _ _ _ _ _ h
    | simp_all

/-- C5 (amended): when a decision supplies stop_loss_pct > 0 and
take_profit_pct > 0 and reaches the reward/risk gate, it rejects with the
"raw R too low" reason exactly when take_profit_pct / stop_loss_pct < 1.5;
otherwise, provided stop_loss_pct + 2·fee ≥ 1e-9 (the code clamps the
effective-loss denominator at 1e-9), it rejects with the effective-R
reason exactly when (tp − 2·fee)/(sl + 2·fee) < 1.0, where
fee = fee_rate_bps·1e-4; and any "raw R too low" verdict of the full
evaluation comes from this gate on the decision's raw percentages. -/
theorem C5_reward_risk_screen (cfg : RiskConfig) (tp sl : ℚ)
    (htp : 0 < tp) (hsl : 0 < sl)
    (hden : eps9 ≤ sl + 2 * (cfg.fee_rate_bps * (1 / 10000))) :
    (rewardRiskCheck cfg tp sl = some .rawRTooLow ↔ tp / sl < 3 / 2) ∧
    (3 / 2 ≤ tp / sl →
      (rewardRiskCheck cfg tp sl = some .effectiveRTooLow ↔
        (tp - 2 * (cfg.fee_rate_bps * (1 / 10000))) /
          (sl + 2 * (cfg.fee_rate_bps * (1 / 10000))) < 1)) ∧
    (∀ (m : Manager) (d : DecisionBody) (market : List (String × MarketRow)) (bal : Balance)
        (ep : Option ℚ) (now : ℤ) (chk : InvChecker),
      (preTradeChecks m d market bal ep now chk).1.2.2 = .rawRTooLow →
      rewardRiskCheck m.cfg (((d.risk.getD {}).take_profit_pct).getD 0)
        (((d.risk.getD {}).stop_loss_pct).getD 0) = some .rawRTooLow) := by
  have hfpos : (0 : ℚ) < sl + 2 * (cfg.fee_rate_bps * (1 / 10000)) :=
    lt_of_lt_of_le (by norm_num [eps9]) hden
  refine ⟨?_, ?_, fun m d market bal ep now chk => preTradeChecks_rawR m d market bal ep now chk⟩
  · simp only [rewardRiskCheck]
    rw [if_pos ⟨htp, hsl⟩]
    split
    · rename_i hr
      simp [hr]
    · rename_i hr
      push_neg at hr
      constructor
      · intro hcontr
        split at hcontr <;> simp_all
      · intro hlt
        exact absurd hlt (not_lt.mpr hr)
  · intro hge
    simp only [rewardRiskCheck]
    rw [if_pos ⟨htp, hsl⟩, if_neg (not_lt.mpr hge), max_eq_right hden]
    have key : (0 ⊔ (tp - 2 * (cfg.fee_rate_bps * (1 / 10000)))) /
        (sl + 2 * (cfg.fee_rate_bps * (1 / 10000))) < 1 ↔
        (tp - 2 * (cfg.fee_rate_bps * (1 / 10000))) /
          (sl + 2 * (cfg.fee_rate_bps * (1 / 10000))) < 1 := by
      rcases le_or_lt 0 (tp - 2 * (cfg.fee_rate_bps * (1 / 10000))) with hnn | hneg
      · rw [max_eq_right hnn]
      · rw [max_eq_left hneg.le]
        simp only [zero_div]
        constructor
        · intro _
          exact lt_trans (div_neg_of_neg_of_pos hneg hfpos) one_pos
        · intro _
          exact one_pos
    split
    · rename_i hlt
      simp only [Option.some.injEq, true_iff]
      exact key.mp hlt
    · rename_i hlt
      constructor
      · intro hcontr
        simp at hcontr
      · intro hcl
        exact absurd (key.mpr hcl) hlt

theorem C5_witness :
    rewardRiskCheck cfgBTC (12 / 1000) (1 / 100) = some .rawRTooLow ∧
    rewardRiskCheck cfgBTC (2 / 100) (1 / 100) = none :=
  ⟨(C5_reward_risk_screen cfgBTC (12 / 1000) (1 / 100) (by norm_num) (by norm_num)
      (by decide)).1.mpr (by norm_num),
   by decide⟩

/-- C5 counterexample: with fee_rate_bps = 0, stop_loss_pct = 1e-10 and
take_profit_pct = 5e-10 (raw R = 5 ≥ 1.5, claimed effective R
(tp − 0)/(sl + 0) = 5 ≥ 1.0), the full evaluation still rejects with the
effective-R reason, because the code divides by max(1e-9, sl + 2·fee)
= 1e-9 instead of sl + 2·fee. -/
theorem C5_counterexample :
    (preTradeChecks mgrFee0 dTinySl mkt0 bal0 (some 100000) 1000000 chk0).1.2.2 =
      .effectiveRTooLow ∧
    (0 : ℚ) < 5 / 10000000000 ∧ (0 : ℚ) < 1 / 10000000000 ∧
    (3 / 2 : ℚ) ≤ (5 / 10000000000) / (1 / 10000000000) ∧
    (1 : ℚ) ≤ ((5 / 10000000000 : ℚ) - 2 * (mgrFee0.cfg.fee_rate_bps * (1 / 10000))) /
      ((1 / 10000000000 : ℚ) + 2 * (mgrFee0.cfg.fee_rate_bps * (1 / 10000))) := by
  refine ⟨by decide, by decide, by decide, by decide, by decide⟩

end ConcreteEvaluation

end AITrading
